import Mathlib

/-!
Shallow embedding of the transaction-construction core of the gotts/grin-wallet
repository (files `src/libwallet/src/internal/tx.rs` and
`src/controller/src/command.rs`), together with theorems settling the frozen
claims about its specification.

Commitments, keys and signatures are modelled as opaque numeric identifiers:
none of the claims depend on the cryptographic arithmetic, only on which
records are looked up, stored, unlocked or cancelled and which errors are
produced.
-/

namespace GrinWallet

/-- Pedersen commitment, modelled as an opaque identifier. -/
abbrev Commit := Nat

/-- Slate id (a Uuid in the source), modelled as an opaque identifier. -/
abbrev SlateId := Nat

/-- Keychain identifier (parent key path), modelled as an opaque identifier. -/
abbrev KeyId := Nat

/-- The error kinds of the wallet relevant to the claims
(`ErrorKind` in the source crates). -/
inductive ErrorKind where
  | NodeUnavailable
  | TransactionDoesntExist (s : String)
  | TransactionNotCancellable (s : String)
  | ArgumentError (s : String)
  | GenericError (s : String)
  deriving DecidableEq, Repr

/-- `TxLogEntryType` from the libwallet types. -/
inductive TxLogEntryType where
  | ConfirmedCoinbase
  | TxReceived
  | TxSent
  | TxReceivedCancelled
  | TxSentCancelled
  deriving DecidableEq, Repr

/-- `OutputStatus` from the libwallet types. -/
inductive OutputStatus where
  | Unconfirmed
  | Unspent
  | Locked
  | Confirmed
  | Spent
  | Cancelled
  deriving DecidableEq, Repr

/-- `TxLogEntry` from the libwallet types: a transaction log record. -/
structure TxLogEntry where
  id : Nat
  parent_key_id : KeyId
  tx_type : TxLogEntryType
  tx_slate_id : Option SlateId
  confirmed : Bool
  posted : Option Bool
  messages : Option (List (Option String))
  kernel_excess : Option Nat
  grinrelay_key_path : Option Nat
  deriving DecidableEq, Repr

/-- `OutputData` from the libwallet types: a locally tracked output.
Only the fields the claims depend on are modelled. -/
structure OutputData where
  commit : Commit
  key_id : KeyId
  value : Nat
  status : OutputStatus
  tx_log_entry : Option Nat
  slate_id : Option SlateId
  deriving DecidableEq, Repr

/-- `PaymentData` from the libwallet types: a recorded payment output.
The fields are exactly those populated by `complete_tx` in
`src/libwallet/src/internal/tx.rs`. -/
structure PaymentData where
  commit : Commit
  value : Nat
  status : OutputStatus
  height : Nat
  lock_height : Nat
  slate_id : SlateId
  id : Option Nat
  deriving DecidableEq, Repr

/-- The persistent wallet state visible to the claims: transaction log,
outputs and payment records. -/
structure WalletState where
  txLog : List TxLogEntry
  outputs : List OutputData
  payments : List PaymentData
  deriving DecidableEq, Repr

/-- The filter `updater::retrieve_txs` applies to a log entry: an entry
matches when its parent key matches (if a parent filter is given) and its
numeric id (when `tx_id` is given) or its slate id (when `tx_slate_id` is
given) matches. -/
def txMatches (tx_id : Option Nat) (tx_slate_id : Option SlateId)
    (parent : Option KeyId) (t : TxLogEntry) : Bool :=
  (match parent with
   | some p => t.parent_key_id == p
   | none => true) &&
  (match tx_id with
   | some i => t.id == i
   | none =>
     match tx_slate_id with
     | some s => t.tx_slate_id == some s
     | none => true)

/-- Modelled from the spec: `updater::retrieve_txs` (internal/updater.rs, not
under src/) returns the log entries matching the given id / slate id / parent
key filters. -/
def retrieve_txs (w : WalletState) (tx_id : Option Nat)
    (tx_slate_id : Option SlateId) (parent : Option KeyId) : List TxLogEntry :=
  w.txLog.filter (txMatches tx_id tx_slate_id parent)

/-- The filter `updater::retrieve_outputs` applies to an output record. -/
def outputMatches (show_spent : Bool) (tx_id : Option Nat)
    (slate_id : Option SlateId) (parent : Option KeyId) (o : OutputData) : Bool :=
  (show_spent || !(o.status == OutputStatus.Spent)) &&
  (match parent with
   | some p => o.key_id == p
   | none => true) &&
  (match tx_id with
   | some i => o.tx_log_entry == some i
   | none => true) &&
  (match slate_id with
   | some s => o.slate_id == some s
   | none => true)

/-- Modelled from the spec: `updater::retrieve_outputs` (internal/updater.rs,
not under src/) returns the outputs matching the given filters, hiding spent
outputs unless requested. -/
def retrieve_outputs (w : WalletState) (show_spent : Bool) (tx_id : Option Nat)
    (slate_id : Option SlateId) (parent : Option KeyId) : List OutputData :=
  w.outputs.filter (outputMatches show_spent tx_id slate_id parent)

/-- The cancelled counterpart of a log entry type. -/
def cancelledType : TxLogEntryType → TxLogEntryType
  | TxLogEntryType.TxSent => TxLogEntryType.TxSentCancelled
  | TxLogEntryType.TxReceived => TxLogEntryType.TxReceivedCancelled
  | t => t

/-- Modelled from the spec: `updater::cancel_tx_and_outputs` (internal/updater.rs,
not under src/) returns every output associated with the entry to unlocked
(Unspent) and marks the entry cancelled. -/
def cancel_tx_and_outputs (w : WalletState) (tx : TxLogEntry)
    (commits : List Commit) (parent : KeyId) : WalletState :=
  { w with
    outputs := w.outputs.map (fun o =>
      if commits.contains o.commit then { o with status := OutputStatus.Unspent } else o),
    txLog := w.txLog.map (fun t =>
      if t.id == tx.id && t.parent_key_id == parent then
        { t with tx_type := cancelledType t.tx_type }
      else t) }

/-- Modelled from the spec: `updater::cancel_payments` (internal/updater.rs, not
under src/) cancels the payment records associated with the slate id, leaving
no dangling payment record for it. -/
def cancel_payments (w : WalletState) (sid : SlateId) : WalletState :=
  { w with payments := w.payments.filter (fun p => !(p.slate_id == sid)) }

/-- The id string used in `cancel_tx` error messages. -/
def cancelIdString (tx_id : Option Nat) (tx_slate_id : Option SlateId) : String :=
  match tx_id with
  | some i => toString i
  | none =>
    match tx_slate_id with
    | some s => toString s
    | none => ""

/-- `cancel_tx` from `src/libwallet/src/internal/tx.rs` (lines 322..371):
looks up the transaction log entries matching the given numeric id or slate id,
fails with `TransactionDoesntExist` unless exactly one matches, fails with
`TransactionNotCancellable` when the entry is not a Sent/Received entry or is
confirmed or posted, and otherwise unlocks the associated outputs and (for a
sent entry with a slate id) cancels the associated payment records. -/
def cancel_tx (w : WalletState) (parent_key_id : KeyId) (tx_id : Option Nat)
    (tx_slate_id : Option SlateId) : Except ErrorKind WalletState :=
  let s := cancelIdString tx_id tx_slate_id
  match retrieve_txs w tx_id tx_slate_id (some parent_key_id) with
  | [tx] =>
    if !(tx.tx_type == TxLogEntryType.TxSent) && !(tx.tx_type == TxLogEntryType.TxReceived) then
      Except.error (ErrorKind.TransactionNotCancellable s)
    else if tx.confirmed || tx.posted == some true then
      Except.error (ErrorKind.TransactionNotCancellable s)
    else
      let res := retrieve_outputs w true (some tx.id) none (some parent_key_id)
      let commits := res.map (fun o => o.commit)
      let w1 := cancel_tx_and_outputs w tx commits parent_key_id
      let w2 :=
        if tx.tx_type == TxLogEntryType.TxSent then
          match tx.tx_slate_id with
          | some sid => cancel_payments w1 sid
          | none => w1
        else w1
      Except.ok w2
  | _ => Except.error (ErrorKind.TransactionDoesntExist s)

/-- `ParticipantData` from the slate: one party's public contribution.
Public keys, nonces and signatures are opaque identifiers. -/
structure ParticipantData where
  id : Nat
  public_blind_excess : Nat
  public_nonce : Nat
  part_sig : Option Nat
  message : Option String
  deriving DecidableEq, Repr

/-- The slate document, with the fields the claims depend on.
`tx_outputs` models the commitments of `slate.tx.outputs()` and
`kernel_excess_list` the excess values of `slate.tx.body.kernels`. -/
structure Slate where
  id : SlateId
  num_participants : Nat
  amount : Nat
  fee : Nat
  height : Nat
  lock_height : Nat
  block_header_version : Nat
  tx_outputs : List Commit
  kernel_excess_list : List Nat
  participant_data : List ParticipantData
  deriving DecidableEq, Repr

/-- `Slate::participant_with_id` from slate.rs: the participant entry with the
given id, if any. -/
def Slate.participant_with_id (s : Slate) (pid : Nat) : Option ParticipantData :=
  s.participant_data.find? (fun p => p.id == pid)

/-- `Slate::participant_messages`: the list of participant messages. -/
def Slate.participant_messages (s : Slate) : List (Option String) :=
  s.participant_data.map (fun p => p.message)

/-- Modelled from the spec: `ParticipantData::is_complete` (slate.rs, not under
src/) — absence of the partial signature means the participant has not
completed round 2. -/
def ParticipantData.is_complete (p : ParticipantData) : Bool :=
  p.part_sig.isSome

/-- Modelled from the spec: `Slate::blank` (slate.rs, not under src/) creates a
fresh slate for the given participant count with zero amount, height and lock
height and the wire format's default block-header-version gate. -/
def Slate.blank (num_participants : Nat) (default_bhv : Nat) : Slate :=
  { id := 0
    num_participants := num_participants
    amount := 0
    fee := 0
    height := 0
    lock_height := 0
    block_header_version := default_bhv
    tx_outputs := []
    kernel_excess_list := []
    participant_data := [] }

/-- `new_tx_slate` from `src/libwallet/src/internal/tx.rs` (lines 39..72):
queries the chain height (propagating the failure), creates a blank slate,
sets the amount and height, gates the block-header version on
`valid_header_version` at that height, and sets the lock height explicitly to
zero so the transaction carries a plain (non-height-locked) kernel. The chain
client and the consensus gate are external collaborators, passed as values. -/
def new_tx_slate (get_height : Except ErrorKind Nat)
    (valid_header_version : Nat → Nat → Bool) (amount : Nat)
    (num_participants : Nat) (default_bhv : Nat) : Except ErrorKind Slate :=
  match get_height with
  | Except.error e => Except.error e
  | Except.ok current_height =>
    let s := Slate.blank num_participants default_bhv
    let s := { s with amount := amount, height := current_height }
    let s :=
      if valid_header_version current_height 1 then
        { s with block_header_version := 1 }
      else s
    Except.ok { s with lock_height := 0 }

/-- Modelled from the spec: `Slate::fill_round_1` (slate.rs, not under src/) —
round 1 records this participant's public blinding key, public nonce and
optional message under the given participant id, idempotently: re-invoking
overwrites only that participant's contribution. -/
def fill_round_1 (s : Slate) (pub_key pub_nonce : Nat) (pid : Nat)
    (msg : Option String) : Slate :=
  let pd : ParticipantData :=
    { id := pid
      public_blind_excess := pub_key
      public_nonce := pub_nonce
      part_sig := none
      message := msg }
  if s.participant_data.any (fun p => p.id == pid) then
    { s with participant_data :=
        s.participant_data.map (fun p => if p.id == pid then pd else p) }
  else
    { s with participant_data := s.participant_data ++ [pd] }

/-- Modelled from the spec: `Slate::fill_round_2` (slate.rs, not under src/) —
round 2 computes this participant's partial signature and records it on the
participant entry with the given id. -/
def fill_round_2 (s : Slate) (sig : Nat) (pid : Nat) : Slate :=
  { s with participant_data :=
      s.participant_data.map (fun p =>
        if p.id == pid then { p with part_sig := some sig } else p) }

/-- `add_output_to_slate` from `src/libwallet/src/internal/tx.rs`
(lines 195..234): builds the receiver output, performs round 1 with the
participant id hard-coded to 1, and, when the caller is not the initiator,
performs round 2 with the given `participant_id`. The derived public key,
nonce and partial signature are opaque values. -/
def add_output_to_slate (s : Slate) (participant_id : Nat)
    (pub_key pub_nonce sig : Nat) (message : Option String)
    (is_initiator : Bool) : Slate :=
  let s1 := fill_round_1 s pub_key pub_nonce 1 message
  if !is_initiator then fill_round_2 s1 sig participant_id else s1

/-- The change-output commitments stored for the slate id, as `complete_tx`
retrieves them (`retrieve_outputs wallet false none (some slate.id) parent`). -/
def change_commits (w : WalletState) (slate : Slate) (parent : KeyId) : List Commit :=
  (retrieve_outputs w false none (some slate.id) (some parent)).map (fun o => o.commit)

/-- The payment outputs of `complete_tx`: the slate transaction outputs whose
commitment is not among the given change commitments. -/
def payment_outputs (slate : Slate) (changeCommits : List Commit) : List Commit :=
  slate.tx_outputs.filter (fun c => !(changeCommits.contains c))

/-- The transaction log id `complete_tx` links payments to: the id of the
first log entry whose slate id and parent key match. -/
def find_tx_id (w : WalletState) (slate : Slate) (parent : KeyId) : Option Nat :=
  (w.txLog.find? (fun t =>
    t.tx_slate_id == some slate.id && t.parent_key_id == parent)).map (fun t => t.id)

/-- The payment records `complete_tx` saves for the given payment outputs:
one record of value 0 (unknown) per output when more than one payment output
results, one record carrying the slate's full amount when exactly one results,
and none when none results. -/
def payment_entries (slate : Slate) (outputs : List Commit)
    (tx_id : Option Nat) : List PaymentData :=
  match outputs with
  | [] => []
  | [c] =>
    [{ commit := c
       value := slate.amount
       status := OutputStatus.Unconfirmed
       height := slate.height
       lock_height := 0
       slate_id := slate.id
       id := tx_id }]
  | cs =>
    cs.map (fun c =>
      { commit := c
        value := 0
        status := OutputStatus.Unconfirmed
        height := slate.height
        lock_height := 0
        slate_id := slate.id
        id := tx_id })

/-- The payment records saved by one successful `complete_tx` run. -/
def complete_tx_payments (w : WalletState) (slate : Slate) (parent : KeyId) :
    List PaymentData :=
  payment_entries slate (payment_outputs slate (change_commits w slate parent))
    (find_tx_id w slate parent)

/-- `complete_tx` from `src/libwallet/src/internal/tx.rs` (lines 237..319):
performs this party's round 2 and finalizes (both external to src/, passed as
outcomes), then classifies the slate outputs into change vs. payment by set
difference against the stored change commitments and saves the payment
records. -/
def complete_tx (round_2 : Except ErrorKind Unit)
    (finalize_result : Except ErrorKind Unit) (w : WalletState) (slate : Slate)
    (parent : KeyId) : Except ErrorKind WalletState :=
  match round_2 with
  | Except.error e => Except.error e
  | Except.ok _ =>
    match finalize_result with
    | Except.error e => Except.error e
    | Except.ok _ =>
      Except.ok { w with payments := w.payments ++ complete_tx_payments w slate parent }

/-- The result of `update_stored_tx`: what was persisted, keyed by the found
entry's slate id. -/
structure StoredTxUpdate where
  key : SlateId
  proof_stored : Option Nat
  tx_stored : List Commit
  deriving DecidableEq, Repr

/-- `update_stored_tx` from `src/libwallet/src/internal/tx.rs`
(lines 374..409): retrieves the entries matching the slate id, picks the first
`TxSent` entry (regular flow) or the first `TxReceived` entry (invoiced flow),
fails with `TransactionDoesntExist` when none is found, and otherwise stores
the proof (when given) and the transaction body keyed by the found entry's
slate id. The `none` result models the `unwrap` panic when the found entry
carries no slate id (shown unreachable below). -/
def update_stored_tx (w : WalletState) (slate : Slate) (tx_proof : Option Nat)
    (is_invoiced : Bool) : Option (Except ErrorKind StoredTxUpdate) :=
  let tx_vec := retrieve_txs w none (some slate.id) none
  let tx := tx_vec.find? (fun t =>
    (t.tx_type == TxLogEntryType.TxSent && !is_invoiced) ||
    (t.tx_type == TxLogEntryType.TxReceived && is_invoiced))
  match tx with
  | none => some (Except.error (ErrorKind.TransactionDoesntExist (toString slate.id)))
  | some t =>
    match t.tx_slate_id with
    | none => none
    | some sid =>
      some (Except.ok
        { key := sid
          proof_stored := tx_proof
          tx_stored := slate.tx_outputs })

/-- `update_message` from `src/libwallet/src/internal/tx.rs` (lines 412..438):
fails with `TransactionDoesntExist` when no log entry matches the slate id;
otherwise saves, on every matching entry, the slate's participant messages,
the given relay key path, and the first kernel's excess (when a kernel
exists). -/
def update_message (w : WalletState) (slate : Slate)
    (grinrelay_key_path : Option Nat) : Except ErrorKind WalletState :=
  let tx_vec := retrieve_txs w none (some slate.id) none
  if tx_vec.isEmpty then
    Except.error (ErrorKind.TransactionDoesntExist (toString slate.id))
  else
    Except.ok { w with txLog := w.txLog.map (fun t =>
      if txMatches none (some slate.id) none t then
        { t with
          messages := some slate.participant_messages
          grinrelay_key_path := grinrelay_key_path
          kernel_excess :=
            match slate.kernel_excess_list.head? with
            | some k => some k
            | none => t.kernel_excess }
      else t) }

/-- Outcome of one post attempt against the node, with an opaque error token. -/
inductive PostOutcome where
  | ok
  | err (e : Nat)
  deriving DecidableEq, Repr

/-- Outcome of `repost_last_txs`: `Ok(true)` (one repost succeeded),
`Ok(false)`, or an error. -/
inductive RepostLastOutcome where
  | okTrue
  | okFalse
  | err (e : Nat)
  deriving DecidableEq, Repr

/-- Observable trace of the post phase of `send`: how many times the current
slate was posted, how many times `repost_last_txs` was invoked, and whether
the current transaction attempt was cancelled. -/
structure SendPostTrace where
  currentPosts : Nat
  repostLastCalls : Nat
  cancelCalled : Bool
  deriving DecidableEq, Repr

/-- The post phase of `send` from `src/controller/src/command.rs`
(lines 499..521): posts the current slate; on failure invokes
`repost_last_txs` once and, only when that reports a successful repost,
retries the current post once; when the send still has not succeeded it
cancels the current transaction and surfaces the original post error.
The three network outcomes are passed as values. -/
def send_post_phase (post1 : PostOutcome) (repost_last : RepostLastOutcome)
    (post2 : PostOutcome) : SendPostTrace × Except Nat Unit :=
  match post1 with
  | PostOutcome.ok => ({ currentPosts := 1, repostLastCalls := 0, cancelCalled := false }, Except.ok ())
  | PostOutcome.err e =>
    match repost_last with
    | RepostLastOutcome.okTrue =>
      match post2 with
      | PostOutcome.ok =>
        ({ currentPosts := 2, repostLastCalls := 1, cancelCalled := false }, Except.ok ())
      | PostOutcome.err _ =>
        ({ currentPosts := 2, repostLastCalls := 1, cancelCalled := true }, Except.error e)
    | _ =>
      ({ currentPosts := 1, repostLastCalls := 1, cancelCalled := true }, Except.error e)

/-- What the `repost` command did. -/
inductive RepostAction where
  | noAction
  | posted (slate_id : Option SlateId)
  | dumped (file : String)
  deriving DecidableEq, Repr

/-- `repost` from `src/controller/src/command.rs` (lines 1054..1091): fetches
the log entries for the given id and the stored transaction body
(`get_stored_tx`, passed as a value); when no body was stored it logs an error
and returns Ok without reposting; with no dump file, a confirmed transaction
likewise logs and returns Ok without reposting, and an unconfirmed one is
posted (propagating the post error); with a dump file the body is dumped.
The `none` result models the `txs[0]` index panic on an empty lookup. -/
def repost (txs : List TxLogEntry) (stored_tx : Option Nat)
    (post_result : Except ErrorKind Unit) (dump_file : Option String) :
    Option (Except ErrorKind RepostAction) :=
  match txs with
  | [] => none
  | tx0 :: _ =>
    some
      (if stored_tx.isNone then Except.ok RepostAction.noAction
       else
         match dump_file with
         | none =>
           if tx0.confirmed then Except.ok RepostAction.noAction
           else
             match post_result with
             | Except.error e => Except.error e
             | Except.ok _ => Except.ok (RepostAction.posted tx0.tx_slate_id)
         | some f => Except.ok (RepostAction.dumped f))

/-- Outcome of the relay abbreviated-address resolution in `send`. -/
inductive RelayResolveOutcome where
  | proceed (dest : String)
  | exitProcess
  | failure (e : ErrorKind)
  deriving DecidableEq, Repr

/-- The abbreviated-address resolution of `send` over the relay transport,
from `src/controller/src/command.rs` (lines 386..419): the query result (the
list of online addresses matching the abbreviation, or no response) is kept
only when non-empty; with no addresses the send fails with `ArgumentError`;
with exactly one address the user is prompted and anything but y/Y terminates
the process; with more than one address the send is cancelled by terminating
the process. -/
def resolve_relay_abbrev (query_result : Option (List String))
    (confirm : String) : RelayResolveOutcome :=
  let addresses : Option (List String) :=
    match query_result with
    | some addrs => if addrs.isEmpty then none else some addrs
    | none => none
  match addresses with
  | none => RelayResolveOutcome.failure
      (ErrorKind.ArgumentError "wrong address, or destination is offline")
  | some addrs =>
    match addrs with
    | [] => RelayResolveOutcome.failure
        (ErrorKind.ArgumentError "wrong address, or destination is offline")
    | [a] =>
      if confirm == "y" || confirm == "Y" then RelayResolveOutcome.proceed a
      else RelayResolveOutcome.exitProcess
    | _ => RelayResolveOutcome.exitProcess

/-- The invoice classification of the `finalize` command, from
`src/controller/src/command.rs` (lines 564..606): fails with `ArgumentError`
when the slate carries no participant data for id 1, and otherwise treats the
slate as an invoice transaction exactly when participant 1 has not completed
its partial signature. -/
def finalize_is_invoice (slate : Slate) : Except ErrorKind Bool :=
  match slate.participant_with_id 1 with
  | none => Except.error
      (ErrorKind.ArgumentError "Expected Slate participant data missing")
  | some p => Except.ok (!p.is_complete)

/-! Concrete sample records used in witnesses and counterexamples. -/

/-- A pending (unconfirmed, unposted) sent log entry. -/
def sampleSentEntry : TxLogEntry :=
  { id := 1
    parent_key_id := 0
    tx_type := TxLogEntryType.TxSent
    tx_slate_id := some 9
    confirmed := false
    posted := none
    messages := none
    kernel_excess := none
    grinrelay_key_path := none }

/-- A pending received log entry for slate 9. -/
def sampleReceivedEntry : TxLogEntry :=
  { id := 2
    parent_key_id := 0
    tx_type := TxLogEntryType.TxReceived
    tx_slate_id := some 9
    confirmed := false
    posted := none
    messages := none
    kernel_excess := none
    grinrelay_key_path := none }

/-- An already cancelled sent entry: unconfirmed and unposted, yet not
cancellable again. -/
def sampleCancelledEntry : TxLogEntry :=
  { id := 7
    parent_key_id := 0
    tx_type := TxLogEntryType.TxSentCancelled
    tx_slate_id := some 3
    confirmed := false
    posted := none
    messages := none
    kernel_excess := none
    grinrelay_key_path := none }

/-- A slate with id 9 and a single transaction output. -/
def sampleSlate : Slate :=
  { id := 9
    num_participants := 2
    amount := 60
    fee := 8
    height := 100
    lock_height := 0
    block_header_version := 1
    tx_outputs := [5]
    kernel_excess_list := [77]
    participant_data := [] }

/-- A wallet holding one pending sent entry for slate 9 and nothing else. -/
def sampleWallet : WalletState :=
  { txLog := [sampleSentEntry], outputs := [], payments := [] }

/-- `sampleWallet` after `complete_tx` on `sampleSlate`: the single payment
output 5 is recorded with the slate's full amount. -/
def sampleWalletAfter : WalletState :=
  { txLog := [sampleSentEntry]
    outputs := []
    payments := [{ commit := 5, value := 60, status := OutputStatus.Unconfirmed,
                   height := 100, lock_height := 0, slate_id := 9, id := some 1 }] }

/-- A self-send slate: no transaction output beyond the change set. -/
def sampleSelfSendSlate : Slate :=
  { sampleSlate with tx_outputs := [] }

/-!
## Helper lemmas
-/

/-- Unfolding equation for `complete_tx_payments`. -/
lemma complete_tx_payments_def (w : WalletState) (slate : Slate) (parent : KeyId) :
    complete_tx_payments w slate parent =
      payment_entries slate
        (payment_outputs slate (change_commits w slate parent))
        (find_tx_id w slate parent) := rfl

/-- The payment records carry exactly the payment-output commitments,
in order. -/
lemma payment_entries_map_commit (slate : Slate) (outs : List Commit)
    (tid : Option Nat) :
    (payment_entries slate outs tid).map (fun p => p.commit) = outs := by
  match outs with
  | [] => rfl
  | [c] => rfl
  | c1 :: c2 :: t => simp [payment_entries, List.map_map, Function.comp_def]

/-- The single-payment-output record carries the slate's full amount. -/
lemma payment_entries_single (slate : Slate) (c : Commit) (tid : Option Nat) :
    payment_entries slate [c] tid =
      [{ commit := c, value := slate.amount, status := OutputStatus.Unconfirmed,
         height := slate.height, lock_height := 0, slate_id := slate.id,
         id := tid }] := rfl

/-- With more than one payment output, every record carries the 0
unknown-value placeholder. -/
lemma payment_entries_value_zero (slate : Slate) (outs : List Commit)
    (tid : Option Nat) (h : 1 < outs.length) :
    ∀ p ∈ payment_entries slate outs tid, p.value = 0 := by
  match outs, h with
  | c1 :: c2 :: t, _ =>
    intro p hp
    obtain ⟨c, _, hce⟩ := List.mem_map.mp hp
    rw [← hce]

/-- `find?` by participant id commutes with an id-preserving map. -/
lemma find_map_id_preserving (f : ParticipantData → ParticipantData)
    (hf : ∀ p, (f p).id = p.id) (l : List ParticipantData) (pid : Nat) :
    (l.map f).find? (fun p => p.id == pid) =
      (l.find? (fun p => p.id == pid)).map f := by
  induction l with
  | nil => rfl
  | cons a t ih =>
    have hfa : (((f a).id == pid) : Bool) = ((a.id == pid) : Bool) := by rw [hf]
    cases ha : ((a.id == pid) : Bool) with
    | true =>
      rw [List.map_cons,
        List.find?_cons_of_pos (p := fun (q : ParticipantData) => q.id == pid) _
          (show ((f a).id == pid) = true by rw [hfa, ha]),
        List.find?_cons_of_pos (p := fun (q : ParticipantData) => q.id == pid) _
          (show (a.id == pid) = true from ha)]
      rfl
    | false =>
      rw [List.map_cons,
        List.find?_cons_of_neg (p := fun (q : ParticipantData) => q.id == pid) _
          (show ¬((f a).id == pid) = true by rw [hfa, ha]; simp),
        List.find?_cons_of_neg (p := fun (q : ParticipantData) => q.id == pid) _
          (show ¬(a.id == pid) = true by rw [ha]; simp), ih]

/-- Overwriting the entry with the given id makes it the `find?` result,
provided such an entry exists. -/
lemma find_overwrite (l : List ParticipantData) (pd : ParticipantData)
    (pid : Nat) (hpd : pd.id = pid)
    (h : l.any (fun p => p.id == pid) = true) :
    (l.map (fun p => if p.id == pid then pd else p)).find?
      (fun p => p.id == pid) = some pd := by
  induction l with
  | nil => simp at h
  | cons a t ih =>
    cases ha : ((a.id == pid) : Bool) with
    | true =>
      rw [List.map_cons]
      simp only [ha, if_true]
      exact List.find?_cons_of_pos (p := fun (q : ParticipantData) => q.id == pid) _
        (show (pd.id == pid) = true by simp [hpd])
    | false =>
      rw [List.map_cons]
      simp only [ha, Bool.false_eq_true, if_false]
      rw [List.find?_cons_of_neg (p := fun (q : ParticipantData) => q.id == pid) _
        (show ¬(a.id == pid) = true by rw [ha]; simp)]
      rw [List.any_cons, ha, Bool.false_or] at h
      exact ih h

/-- Appending a fresh entry with the given id makes it the `find?` result,
provided no earlier entry carries that id. -/
lemma find_append_fresh (l : List ParticipantData) (pd : ParticipantData)
    (pid : Nat) (hpd : pd.id = pid)
    (h : l.any (fun p => p.id == pid) = false) :
    (l ++ [pd]).find? (fun p => p.id == pid) = some pd := by
  induction l with
  | nil =>
    rw [List.nil_append]
    exact List.find?_cons_of_pos (p := fun (q : ParticipantData) => q.id == pid) _
      (show (pd.id == pid) = true by simp [hpd])
  | cons a t ih =>
    rw [List.any_cons, Bool.or_eq_false_iff] at h
    rw [List.cons_append,
      List.find?_cons_of_neg (p := fun (q : ParticipantData) => q.id == pid) _
        (show ¬(a.id == pid) = true by rw [h.1]; simp)]
    exact ih h.2

/-- Round 1 records the fresh contribution under the given participant id. -/
lemma participant_with_id_fill_round_1 (s : Slate) (pk pn pid : Nat)
    (msg : Option String) :
    (fill_round_1 s pk pn pid msg).participant_with_id pid =
      some { id := pid, public_blind_excess := pk, public_nonce := pn,
             part_sig := none, message := msg } := by
  unfold fill_round_1 Slate.participant_with_id
  cases h : s.participant_data.any (fun p => p.id == pid) with
  | true =>
    simp only [h, if_true]
    exact find_overwrite _ _ _ rfl h
  | false =>
    simp only [h, Bool.false_eq_true, if_false]
    exact find_append_fresh _ _ _ rfl h

/-- The round-2 update commutes with participant lookup. -/
lemma participant_with_id_fill_round_2 (s : Slate) (sig pid j : Nat) :
    (fill_round_2 s sig pid).participant_with_id j =
      (s.participant_with_id j).map
        (fun p => if p.id == pid then { p with part_sig := some sig } else p) := by
  unfold fill_round_2 Slate.participant_with_id
  exact find_map_id_preserving _
    (fun p => by cases h : ((p.id == pid) : Bool) <;> simp [h]) _ j

/-- Cancelled payment tables hold no record for the cancelled slate id. -/
lemma cancel_payments_no_dangling (w : WalletState) (sid : SlateId) :
    ∀ p ∈ (cancel_payments w sid).payments, ¬p.slate_id = sid := by
  intro p hp
  have h2 := (List.mem_filter.mp hp).2
  simpa using h2

/-- After `cancel_tx_and_outputs` on the outputs retrieved for the entry,
every output associated with the entry (and owned by the parent key) is
unlocked. -/
lemma cancel_tx_and_outputs_unlocks (w : WalletState) (a : TxLogEntry)
    (pk : KeyId) :
    ∀ o ∈ (cancel_tx_and_outputs w a
        ((retrieve_outputs w true (some a.id) none (some pk)).map
          (fun x => x.commit)) pk).outputs,
      o.tx_log_entry = some a.id → o.key_id = pk →
      o.status = OutputStatus.Unspent := by
  intro o ho hlog hkey
  obtain ⟨o0, ho0, hoe⟩ := List.mem_map.mp ho
  by_cases hc : (((retrieve_outputs w true (some a.id) none (some pk)).map
      (fun x => x.commit)).contains o0.commit) = true
  · rw [← hoe, if_pos hc]
  · exfalso
    apply hc
    have hoo : o = o0 := by rw [← hoe, if_neg hc]
    rw [hoo] at hlog hkey
    have hmem : o0 ∈ retrieve_outputs w true (some a.id) none (some pk) :=
      List.mem_filter.mpr ⟨ho0, by simp [outputMatches, hlog, hkey]⟩
    have hcm : o0.commit ∈ (retrieve_outputs w true (some a.id) none
        (some pk)).map (fun x => x.commit) :=
      List.mem_map.mpr ⟨o0, hmem, rfl⟩
    exact List.elem_eq_true_of_mem hcm

/-- The entries matching a slate-id filter carry that slate id. -/
lemma retrieve_txs_slate_id (w : WalletState) (sid : SlateId) (t : TxLogEntry)
    (ht : t ∈ retrieve_txs w none (some sid) none) :
    t.tx_slate_id = some sid := by
  have h2 := (List.mem_filter.mp ht).2
  simpa [txMatches] using h2

/-!
## Claim theorems
-/

/-- Claim C2, amended (the post phase of `send`, lines 499..521 of
command.rs): when the initial post of the finalized transaction fails, the
wallet invokes `repost_last_txs` exactly once; it retries the current post
exactly once when the repost reports success and not at all otherwise; the
send succeeds exactly when the repost succeeded and the retry succeeded; and
whenever the send does not succeed the current transaction attempt is
cancelled and the original post error is surfaced, with no further automatic
retries. -/
theorem send_post_retry_spec (e : Nat) (r : RepostLastOutcome) (p2 : PostOutcome) :
    (send_post_phase (PostOutcome.err e) r p2).1.repostLastCalls = 1 ∧
    (send_post_phase (PostOutcome.err e) r p2).1.currentPosts =
      (if r = RepostLastOutcome.okTrue then 2 else 1) ∧
    ((send_post_phase (PostOutcome.err e) r p2).2 = Except.ok () ↔
      (r = RepostLastOutcome.okTrue ∧ p2 = PostOutcome.ok)) ∧
    ((send_post_phase (PostOutcome.err e) r p2).2 ≠ Except.ok () →
      (send_post_phase (PostOutcome.err e) r p2).1.cancelCalled = true ∧
      (send_post_phase (PostOutcome.err e) r p2).2 = Except.error e) := by
  cases r <;> cases p2 <;> simp [send_post_phase]

/-- Witness for `send_post_retry_spec`: at a concrete failed post, failed
retry, the attempt is cancelled and the original error 7 is surfaced. -/
theorem send_post_retry_spec_witness :
    (send_post_phase (PostOutcome.err 7) RepostLastOutcome.okTrue
        (PostOutcome.err 9)).1.cancelCalled = true ∧
    (send_post_phase (PostOutcome.err 7) RepostLastOutcome.okTrue
        (PostOutcome.err 9)).2 = Except.error 7 :=
  (send_post_retry_spec 7 RepostLastOutcome.okTrue (PostOutcome.err 9)).2.2.2
    (by simp [send_post_phase])

/-- Counterexample to claim C2 as stated: it is not true that every failed
initial post is followed by a retry of the current post (two post attempts in
total); when `repost_last_txs` does not report a successful repost the
current post is not retried at all. -/
theorem send_post_claim_counterexample :
    ¬ (∀ (e : Nat) (r : RepostLastOutcome) (p2 : PostOutcome),
        (send_post_phase (PostOutcome.err e) r p2).1.repostLastCalls = 1 ∧
        (send_post_phase (PostOutcome.err e) r p2).1.currentPosts = 2) := by
  intro h
  have h5 := (h 5 RepostLastOutcome.okFalse PostOutcome.ok).2
  simp [send_post_phase] at h5

/-- Claim C4, amended (`repost`, lines 1054..1091 of command.rs, broadcast
path): when no transaction body was stored, or the transaction is already
confirmed, the command logs the problem and returns success WITHOUT
reposting; it re-broadcasts the stored body exactly for a stored, unconfirmed
transaction, propagating the broadcast error. -/
theorem repost_spec (tx0 : TxLogEntry) (rest : List TxLogEntry)
    (stored_tx : Option Nat) (post_result : Except ErrorKind Unit) :
    (stored_tx = none →
      repost (tx0 :: rest) stored_tx post_result none =
        some (Except.ok RepostAction.noAction)) ∧
    (stored_tx.isSome = true → tx0.confirmed = true →
      repost (tx0 :: rest) stored_tx post_result none =
        some (Except.ok RepostAction.noAction)) ∧
    (stored_tx.isSome = true → tx0.confirmed = false →
      post_result = Except.ok () →
      repost (tx0 :: rest) stored_tx post_result none =
        some (Except.ok (RepostAction.posted tx0.tx_slate_id))) ∧
    (∀ e, stored_tx.isSome = true → tx0.confirmed = false →
      post_result = Except.error e →
      repost (tx0 :: rest) stored_tx post_result none = some (Except.error e)) ∧
    (∀ sid, repost (tx0 :: rest) stored_tx post_result none =
        some (Except.ok (RepostAction.posted sid)) →
      stored_tx.isSome = true ∧ tx0.confirmed = false ∧ sid = tx0.tx_slate_id) := by
  cases stored_tx <;> cases hc : tx0.confirmed <;> cases post_result <;>
    simp [repost, hc]

/-- Witness for `repost_spec`: a stored, unconfirmed transaction with a
successful broadcast is reposted under its slate id. -/
theorem repost_spec_witness :
    repost [sampleSentEntry] (some 4) (Except.ok ()) none =
      some (Except.ok (RepostAction.posted (some 9))) :=
  (repost_spec sampleSentEntry [] (some 4) (Except.ok ())).2.2.1
    (by decide) (by decide) rfl

/-- Counterexample to claim C4 as stated: `repost` does NOT return an error
when no transaction body was stored; it logs and returns Ok without
reposting. -/
theorem repost_claim_counterexample :
    ¬ (∀ (tx0 : TxLogEntry) (rest : List TxLogEntry)
        (post_result : Except ErrorKind Unit),
        ∃ e, repost (tx0 :: rest) none post_result none =
          some (Except.error e)) := by
  intro h
  obtain ⟨e, he⟩ := h sampleSentEntry [] (Except.ok ())
  simp [repost] at he

/-- Claim C5 (`new_tx_slate`, lines 39..72 of tx.rs): the slate creation
fails, returning no slate, exactly when the chain-height query fails; on
success the slate records the queried height, the requested amount, a lock
height of exactly 0 (a plain, non-height-locked kernel), and a block-header
version gated by `valid_header_version` at that height. -/
theorem new_tx_slate_spec (get_height : Except ErrorKind Nat)
    (vhv : Nat → Nat → Bool) (amount np dbhv : Nat) :
    (∀ e, get_height = Except.error e →
      new_tx_slate get_height vhv amount np dbhv = Except.error e) ∧
    (∀ h, get_height = Except.ok h →
      ∃ s, new_tx_slate get_height vhv amount np dbhv = Except.ok s ∧
        s.height = h ∧ s.amount = amount ∧ s.lock_height = 0 ∧
        s.num_participants = np ∧
        s.block_header_version = (if vhv h 1 then 1 else dbhv)) := by
  constructor
  · intro e he
    rw [he]
    rfl
  · intro h hh
    rw [hh]
    by_cases hv : vhv h 1
    · refine ⟨{ Slate.blank np dbhv with
          amount := amount
          height := h
          block_header_version := 1
          lock_height := 0 }, ?_, rfl, rfl, rfl, rfl, ?_⟩
      · simp [new_tx_slate, hv]
      · simp [hv]
    · refine ⟨{ Slate.blank np dbhv with
          amount := amount
          height := h
          lock_height := 0 }, ?_, rfl, rfl, rfl, rfl, ?_⟩
      · simp [new_tx_slate, hv]
      · simp [Slate.blank, hv]

/-- Witness for `new_tx_slate_spec`: a failing chain-height query makes the
slate creation fail with the propagated error, returning no slate. -/
theorem new_tx_slate_spec_witness :
    new_tx_slate (Except.error ErrorKind.NodeUnavailable) (fun _ _ => true)
        60 2 1 =
      Except.error ErrorKind.NodeUnavailable :=
  (new_tx_slate_spec (Except.error ErrorKind.NodeUnavailable)
      (fun _ _ => true) 60 2 1).1 ErrorKind.NodeUnavailable rfl

/-- Claim C7, amended (relay abbreviated-address resolution in `send`,
lines 386..419 of command.rs): when the abbreviated destination matches more
than one online address the send is cancelled by terminating the process (it
neither proceeds nor returns an error); `ArgumentError` is what the command
returns when no address matches at all. -/
theorem resolve_relay_abbrev_spec (query_result : Option (List String))
    (confirm : String) :
    (∀ addrs, query_result = some addrs → 1 < addrs.length →
      resolve_relay_abbrev query_result confirm =
        RelayResolveOutcome.exitProcess) ∧
    (query_result = none →
      resolve_relay_abbrev query_result confirm =
        RelayResolveOutcome.failure
          (ErrorKind.ArgumentError "wrong address, or destination is offline")) ∧
    (query_result = some [] →
      resolve_relay_abbrev query_result confirm =
        RelayResolveOutcome.failure
          (ErrorKind.ArgumentError "wrong address, or destination is offline")) := by
  refine ⟨?_, ?_, ?_⟩
  · intro addrs hq hlen
    subst hq
    match addrs, hlen with
    | a :: b :: t, _ => simp [resolve_relay_abbrev]
  · intro hq
    subst hq
    rfl
  · intro hq
    subst hq
    rfl

/-- Witness for `resolve_relay_abbrev_spec`: two matching addresses terminate
the process. -/
theorem resolve_relay_abbrev_spec_witness :
    resolve_relay_abbrev (some ["addr one", "addr two"]) "y" =
      RelayResolveOutcome.exitProcess :=
  (resolve_relay_abbrev_spec (some ["addr one", "addr two"]) "y").1
    ["addr one", "addr two"] rfl (by decide)

/-- Counterexample to claim C7 as stated: an ambiguous (more than one) address
match does NOT fail with `ArgumentError`; the process is terminated instead. -/
theorem resolve_relay_claim_counterexample :
    ¬ (∀ (query_result : Option (List String)) (confirm : String)
        (addrs : List String), query_result = some addrs → 1 < addrs.length →
        ∃ s, resolve_relay_abbrev query_result confirm =
          RelayResolveOutcome.failure (ErrorKind.ArgumentError s)) := by
  intro h
  obtain ⟨s, hs⟩ := h (some ["a", "b"]) "y" ["a", "b"] rfl (by decide)
  simp [resolve_relay_abbrev] at hs

/-- Claim C10 (`finalize` command, lines 564..606 of command.rs): finalizing
fails with `ArgumentError` when the slate carries no participant data for
participant id 1; otherwise the slate is treated as an invoice transaction
exactly when participant 1's data lacks a completed partial signature. -/
theorem finalize_is_invoice_spec (slate : Slate) :
    (slate.participant_with_id 1 = none →
      finalize_is_invoice slate =
        Except.error
          (ErrorKind.ArgumentError "Expected Slate participant data missing")) ∧
    (∀ p, slate.participant_with_id 1 = some p →
      finalize_is_invoice slate = Except.ok p.part_sig.isNone) := by
  constructor
  · intro h
    simp [finalize_is_invoice, h]
  · intro p hp
    simp only [finalize_is_invoice, hp]
    cases hps : p.part_sig <;> simp [ParticipantData.is_complete, hps]

/-- Witness for `finalize_is_invoice_spec`: a slate whose participant 1 has no
partial signature is classified as an invoice transaction. -/
theorem finalize_is_invoice_spec_witness :
    finalize_is_invoice
        { sampleSlate with participant_data :=
            [{ id := 1, public_blind_excess := 11, public_nonce := 12,
               part_sig := none, message := none }] } =
      Except.ok true :=
  (finalize_is_invoice_spec
      { sampleSlate with participant_data :=
          [{ id := 1, public_blind_excess := 11, public_nonce := 12,
             part_sig := none, message := none }] }).2
    { id := 1, public_blind_excess := 11, public_nonce := 12,
      part_sig := none, message := none } rfl

/-- Claim C3 (`complete_tx`, lines 237..319 of tx.rs): on every successful
run, the slate outputs are classified into change vs. payment by set
difference against the change commitments stored for the slate id, and one
PaymentData record is appended per payment output — carrying the slate's full
amount when exactly one payment output results, and the 0 unknown-value
placeholder on each when more than one results. -/
theorem complete_tx_payment_classification (r2 fin : Except ErrorKind Unit)
    (w w2 : WalletState) (slate : Slate) (parent : KeyId) :
    complete_tx r2 fin w slate parent = Except.ok w2 →
    (w2.payments = w.payments ++ complete_tx_payments w slate parent ∧
     (∀ c, c ∈ payment_outputs slate (change_commits w slate parent) ↔
       (c ∈ slate.tx_outputs ∧ c ∉ change_commits w slate parent)) ∧
     ((payment_outputs slate (change_commits w slate parent)).length = 1 →
       (complete_tx_payments w slate parent).map (fun p => p.commit) =
         payment_outputs slate (change_commits w slate parent) ∧
       (complete_tx_payments w slate parent).map (fun p => p.value) =
         [slate.amount]) ∧
     (1 < (payment_outputs slate (change_commits w slate parent)).length →
       (complete_tx_payments w slate parent).map (fun p => p.commit) =
         payment_outputs slate (change_commits w slate parent) ∧
       ∀ p ∈ complete_tx_payments w slate parent, p.value = 0)) := by
  intro hok
  cases r2 with
  | error e => simp [complete_tx] at hok
  | ok u =>
    cases fin with
    | error e => simp [complete_tx] at hok
    | ok v =>
      simp only [complete_tx, Except.ok.injEq] at hok
      refine ⟨?_, ?_, ?_, ?_⟩
      · rw [← hok]
      · intro c
        simp [payment_outputs, List.mem_filter]
      · intro hlen
        obtain ⟨c, hc⟩ := List.length_eq_one.mp hlen
        constructor
        · rw [complete_tx_payments_def, payment_entries_map_commit]
        · rw [complete_tx_payments_def, hc, payment_entries_single]
          rfl
      · intro hlen
        constructor
        · rw [complete_tx_payments_def, payment_entries_map_commit]
        · rw [complete_tx_payments_def]
          exact payment_entries_value_zero slate _ _ hlen

/-- Witness for `complete_tx_payment_classification`: on the sample wallet
and slate, the single payment output 5 is recorded with the slate's full
amount 60. -/
theorem complete_tx_payment_classification_witness :
    (complete_tx_payments sampleWallet sampleSlate 0).map (fun p => p.commit) =
        payment_outputs sampleSlate (change_commits sampleWallet sampleSlate 0) ∧
    (complete_tx_payments sampleWallet sampleSlate 0).map (fun p => p.value) =
        [sampleSlate.amount] :=
  (complete_tx_payment_classification (Except.ok ()) (Except.ok ())
      sampleWallet sampleWalletAfter sampleSlate 0 rfl).2.2.1
    (by decide)

/-- Claim C9 (`complete_tx`, lines 289..315 of tx.rs): when the slate's
output set minus the stored change commitments for its slate id is empty (for
example a self-send), `complete_tx` saves no PaymentData record at all and
still returns success, leaving the wallet unchanged. -/
theorem complete_tx_self_send_no_payment (r2 fin : Except ErrorKind Unit)
    (w : WalletState) (slate : Slate) (parent : KeyId) :
    r2 = Except.ok () → fin = Except.ok () →
    payment_outputs slate (change_commits w slate parent) = [] →
    complete_tx r2 fin w slate parent = Except.ok w := by
  intro h1 h2 h3
  subst h1
  subst h2
  simp [complete_tx, complete_tx_payments_def, h3, payment_entries]

/-- Witness for `complete_tx_self_send_no_payment`: a self-send slate on the
sample wallet completes successfully without touching the payment table. -/
theorem complete_tx_self_send_no_payment_witness :
    complete_tx (Except.ok ()) (Except.ok ()) sampleWallet sampleSelfSendSlate 0 =
      Except.ok sampleWallet :=
  complete_tx_self_send_no_payment (Except.ok ()) (Except.ok ()) sampleWallet
    sampleSelfSendSlate 0 rfl rfl (by decide)

/-- Claim C8 (`add_output_to_slate`, lines 195..234 of tx.rs): the round-1
contribution (public blinding key, public nonce, optional message) is always
recorded under participant id 1, whatever the `participant_id` argument is,
while the round-2 partial signature — performed only when the caller is not
the initiator — is recorded under the given `participant_id`; an initiator
call leaves the fresh participant-1 entry without a partial signature. -/
theorem add_output_to_slate_spec (s : Slate) (participant_id pk pn sig : Nat)
    (msg : Option String) (is_initiator : Bool) :
    (∃ ps, (add_output_to_slate s participant_id pk pn sig msg
        is_initiator).participant_with_id 1 =
      some { id := 1, public_blind_excess := pk, public_nonce := pn,
             part_sig := ps, message := msg }) ∧
    (is_initiator = false →
      ∀ p, (add_output_to_slate s participant_id pk pn sig msg
          is_initiator).participant_with_id participant_id = some p →
        p.part_sig = some sig) ∧
    (is_initiator = true →
      (add_output_to_slate s participant_id pk pn sig msg
          is_initiator).participant_with_id 1 =
        some { id := 1, public_blind_excess := pk, public_nonce := pn,
               part_sig := none, message := msg }) := by
  cases is_initiator with
  | true =>
    have h1 : (add_output_to_slate s participant_id pk pn sig msg
        true).participant_with_id 1 =
        some { id := 1, public_blind_excess := pk, public_nonce := pn,
               part_sig := none, message := msg } :=
      participant_with_id_fill_round_1 s pk pn 1 msg
    exact ⟨⟨none, h1⟩, fun hff => absurd hff (by simp), fun _ => h1⟩
  | false =>
    have h1 := participant_with_id_fill_round_1 s pk pn 1 msg
    have h2 := participant_with_id_fill_round_2
      (fill_round_1 s pk pn 1 msg) sig participant_id 1
    refine ⟨?_, ?_, fun htt => absurd htt (by simp)⟩
    · show ∃ ps, (fill_round_2 (fill_round_1 s pk pn 1 msg) sig
        participant_id).participant_with_id 1 = some _
      rw [h2, h1]
      cases hc : (((1 : Nat) == participant_id) : Bool) with
      | true =>
        have hc2 : 1 = participant_id := by simpa using hc
        exact ⟨some sig, by simp [hc, hc2]⟩
      | false =>
        have hc2 : ¬(1 = participant_id) := by simpa using hc
        exact ⟨none, by simp [hc, hc2]⟩
    · intro _ p hp
      have hp2 : (fill_round_2 (fill_round_1 s pk pn 1 msg) sig
          participant_id).participant_with_id participant_id = some p := hp
      rw [participant_with_id_fill_round_2] at hp2
      cases hq : (fill_round_1 s pk pn 1 msg).participant_with_id
          participant_id with
      | none => rw [hq] at hp2; cases hp2
      | some q =>
        rw [hq] at hp2
        have hq2 : (fill_round_1 s pk pn 1 msg).participant_data.find?
            (fun x => x.id == participant_id) = some q := hq
        have hqid0 := List.find?_some hq2
        have hqid : (q.id == participant_id) = true := hqid0
        have hp3 : (if (q.id == participant_id) = true then
            { q with part_sig := some sig } else q) = p := by simpa using hp2
        rw [← hp3]
        simp [hqid]

/-- Witness for `add_output_to_slate_spec`: an initiator-side call with
`participant_id` 0 still records the round-1 data under participant id 1. -/
theorem add_output_to_slate_spec_witness :
    (add_output_to_slate sampleSlate 0 11 12 13 none true).participant_with_id 1 =
      some { id := 1, public_blind_excess := 11, public_nonce := 12,
             part_sig := none, message := none } :=
  (add_output_to_slate_spec sampleSlate 0 11 12 13 none true).2.2 rfl

/-- `sampleSentEntry` after `update_message` on `sampleSlate` with relay key
path 3: messages, relay key path and first kernel excess are saved. -/
def sampleUpdatedEntry : TxLogEntry :=
  { id := 1
    parent_key_id := 0
    tx_type := TxLogEntryType.TxSent
    tx_slate_id := some 9
    confirmed := false
    posted := none
    messages := some []
    kernel_excess := some 77
    grinrelay_key_path := some 3 }

/-- `sampleWallet` after that `update_message` run. -/
def sampleUpdatedWallet : WalletState :=
  { txLog := [sampleUpdatedEntry], outputs := [], payments := [] }

/-- A wallet whose only entry for slate 9 is a received one: `update_stored_tx`
in the regular (non-invoiced) flow finds no sent entry there. -/
def invoiceMismatchWallet : WalletState :=
  { txLog := [sampleReceivedEntry], outputs := [], payments := [] }

/-- Claim C6, amended: `update_stored_tx` (lines 374..409 of tx.rs) fails
with `TransactionDoesntExist` exactly when no entry OF THE EXPECTED TYPE
(TxSent for the regular flow, TxReceived for the invoiced flow) is found
among the entries matching the slate id — an entry of the other type matching
the slate id does not prevent the failure — and on success it persists the
transaction body, and the proof when given, keyed by the found entry's slate
id; `update_message` (lines 412..438) fails with `TransactionDoesntExist`
exactly when no entry at all matches the slate id, and otherwise persists the
slate's participant messages, the relay key path, and the first kernel's
excess onto every matching entry. -/
theorem update_stored_and_message_spec (w : WalletState) (slate : Slate)
    (tx_proof : Option Nat) (is_invoiced : Bool) (g : Option Nat) :
    (update_stored_tx w slate tx_proof is_invoiced ≠ none) ∧
    (update_stored_tx w slate tx_proof is_invoiced =
        some (Except.error (ErrorKind.TransactionDoesntExist (toString slate.id))) ↔
      (retrieve_txs w none (some slate.id) none).find? (fun t =>
        (t.tx_type == TxLogEntryType.TxSent && !is_invoiced) ||
        (t.tx_type == TxLogEntryType.TxReceived && is_invoiced)) = none) ∧
    (∀ u, update_stored_tx w slate tx_proof is_invoiced = some (Except.ok u) →
      u.key = slate.id ∧ u.proof_stored = tx_proof ∧
      u.tx_stored = slate.tx_outputs) ∧
    (update_message w slate g =
        Except.error (ErrorKind.TransactionDoesntExist (toString slate.id)) ↔
      retrieve_txs w none (some slate.id) none = []) ∧
    (∀ w2, update_message w slate g = Except.ok w2 →
      ∀ t ∈ w2.txLog, t.tx_slate_id = some slate.id →
        t.messages = some slate.participant_messages ∧
        t.grinrelay_key_path = g ∧
        ∀ k, slate.kernel_excess_list.head? = some k →
          t.kernel_excess = some k) := by
  have hmsg1 : update_message w slate g =
      Except.error (ErrorKind.TransactionDoesntExist (toString slate.id)) ↔
      retrieve_txs w none (some slate.id) none = [] := by
    cases hr : retrieve_txs w none (some slate.id) none with
    | nil => simp [update_message, hr]
    | cons a l => simp [update_message, hr]
  have hmsg2 : ∀ w2, update_message w slate g = Except.ok w2 →
      ∀ t ∈ w2.txLog, t.tx_slate_id = some slate.id →
        t.messages = some slate.participant_messages ∧
        t.grinrelay_key_path = g ∧
        ∀ k, slate.kernel_excess_list.head? = some k →
          t.kernel_excess = some k := by
    intro w2 hw2 t ht hts
    cases hr : retrieve_txs w none (some slate.id) none with
    | nil => simp [update_message, hr] at hw2
    | cons a l =>
      simp only [update_message, hr, List.isEmpty_cons, if_false,
        Except.ok.injEq, Bool.false_eq_true] at hw2
      rw [← hw2] at ht
      obtain ⟨t0, ht0, hte⟩ := List.mem_map.mp ht
      cases hm : txMatches none (some slate.id) none t0 with
      | true =>
        simp only [hm, if_true] at hte
        rw [← hte]
        refine ⟨rfl, rfl, fun k hk => ?_⟩
        simp [hk]
      | false =>
        simp only [hm, Bool.false_eq_true, if_false] at hte
        rw [← hte] at hts
        have hm2 : txMatches none (some slate.id) none t0 = true := by
          simp [txMatches, hts]
        rw [hm] at hm2
        cases hm2
  rcases hf : (retrieve_txs w none (some slate.id) none).find? (fun t =>
      (t.tx_type == TxLogEntryType.TxSent && !is_invoiced) ||
      (t.tx_type == TxLogEntryType.TxReceived && is_invoiced)) with _ | t0
  · have hs : update_stored_tx w slate tx_proof is_invoiced =
        some (Except.error (ErrorKind.TransactionDoesntExist (toString slate.id))) := by
      simp [update_stored_tx, hf]
    refine ⟨by rw [hs]; simp, by rw [hs, hf]; simp, ?_, hmsg1, hmsg2⟩
    intro u hu
    rw [hs] at hu
    simp at hu
  · have hsid : t0.tx_slate_id = some slate.id :=
      retrieve_txs_slate_id w slate.id t0 (List.mem_of_find?_eq_some hf)
    have hs : update_stored_tx w slate tx_proof is_invoiced =
        some (Except.ok { key := slate.id, proof_stored := tx_proof,
                          tx_stored := slate.tx_outputs }) := by
      simp [update_stored_tx, hf, hsid]
    refine ⟨by rw [hs]; simp, by rw [hs]; simp [hf], ?_, hmsg1, hmsg2⟩
    intro u hu
    rw [hs] at hu
    simp only [Option.some.injEq, Except.ok.injEq] at hu
    rw [← hu]
    exact ⟨rfl, rfl, rfl⟩

/-- Witness for `update_stored_and_message_spec`: on the sample wallet,
`update_stored_tx` neither panics nor loses the lookup, and `update_message`
saves the first kernel's excess 77 onto the matching entry. -/
theorem update_stored_and_message_spec_witness :
    update_stored_tx sampleWallet sampleSlate (some 5) false ≠ none ∧
    sampleUpdatedEntry.kernel_excess = some 77 :=
  ⟨(update_stored_and_message_spec sampleWallet sampleSlate (some 5) false
      (some 3)).1,
   ((update_stored_and_message_spec sampleWallet sampleSlate (some 5) false
        (some 3)).2.2.2.2 sampleUpdatedWallet rfl sampleUpdatedEntry
      (by decide) (by decide)).2.2 77 rfl⟩

/-- Counterexample to claim C6 as stated: `update_stored_tx` can fail with
`TransactionDoesntExist` even though a TxLogEntry DOES match the slate's id —
here a received entry matches slate 9, but the regular (non-invoiced) flow
looks for a sent entry. -/
theorem update_stored_claim_counterexample :
    ¬ (∀ (w : WalletState) (slate : Slate) (pr : Option Nat) (inv : Bool),
        retrieve_txs w none (some slate.id) none ≠ [] →
        update_stored_tx w slate pr inv ≠
          some (Except.error
            (ErrorKind.TransactionDoesntExist (toString slate.id)))) := by
  intro h
  exact h invoiceMismatchWallet sampleSlate none false (by decide) rfl

/-- A wallet holding one confirmed sent entry. -/
def sampleConfirmedWallet : WalletState :=
  { txLog := [{ sampleSentEntry with confirmed := true }]
    outputs := []
    payments := [] }

/-- A wallet holding one already-cancelled sent entry (unconfirmed and
unposted). -/
def cancelledWallet : WalletState :=
  { txLog := [sampleCancelledEntry], outputs := [], payments := [] }

/-- Claim C1, amended (`cancel_tx`, lines 322..371 of tx.rs): the cancel
fails with `TransactionDoesntExist` when the number of matching TxLogEntry
records is not exactly one; it fails with `TransactionNotCancellable` when
the unique match is confirmed or posted, OR when its type is not Sent or
Received (for example an already-cancelled entry); and otherwise it returns
every output associated with that entry to unlocked and cancels the
associated payment records, leaving no payment record for the slate id. -/
theorem cancel_tx_spec (w : WalletState) (pk : KeyId) (tid : Option Nat)
    (sid : Option SlateId) :
    ((retrieve_txs w tid sid (some pk)).length ≠ 1 →
      cancel_tx w pk tid sid =
        Except.error
          (ErrorKind.TransactionDoesntExist (cancelIdString tid sid))) ∧
    (∀ tx, retrieve_txs w tid sid (some pk) = [tx] →
      (((¬tx.tx_type = TxLogEntryType.TxSent ∧
          ¬tx.tx_type = TxLogEntryType.TxReceived) ∨
         tx.confirmed = true ∨ tx.posted = some true) →
        cancel_tx w pk tid sid =
          Except.error
            (ErrorKind.TransactionNotCancellable (cancelIdString tid sid))) ∧
      ((tx.tx_type = TxLogEntryType.TxSent ∨
          tx.tx_type = TxLogEntryType.TxReceived) →
        tx.confirmed = false → ¬tx.posted = some true →
        ∃ w2, cancel_tx w pk tid sid = Except.ok w2 ∧
          (∀ o ∈ w2.outputs, o.tx_log_entry = some tx.id → o.key_id = pk →
            o.status = OutputStatus.Unspent) ∧
          (∀ sl, tx.tx_type = TxLogEntryType.TxSent →
            tx.tx_slate_id = some sl →
            ∀ p ∈ w2.payments, ¬p.slate_id = sl))) := by
  rcases hl : retrieve_txs w tid sid (some pk) with _ | ⟨a, rest⟩
  · refine ⟨fun _ => by simp [cancel_tx, hl], fun tx htx => ?_⟩
    simp at htx
  · rcases rest with _ | ⟨b, rest2⟩
    · refine ⟨fun hlen => absurd rfl hlen, fun tx htx => ?_⟩
      have hta : a = tx := by simpa using htx
      subst hta
      constructor
      · intro hcond
        rcases hcond with ⟨hns, hnr⟩ | hconf | hpost
        · have hb : (!(a.tx_type == TxLogEntryType.TxSent) &&
              !(a.tx_type == TxLogEntryType.TxReceived)) = true := by
            simp only [Bool.and_eq_true, Bool.not_eq_true']
            exact ⟨by simpa using hns, by simpa using hnr⟩
          simp [cancel_tx, hl, hb]
        · by_cases h1 : (!(a.tx_type == TxLogEntryType.TxSent) &&
              !(a.tx_type == TxLogEntryType.TxReceived)) = true
          · simp [cancel_tx, hl, h1]
          · have h1f : (!(a.tx_type == TxLogEntryType.TxSent) &&
                !(a.tx_type == TxLogEntryType.TxReceived)) = false := by
              simpa using h1
            simp [cancel_tx, hl, h1f, hconf]
        · by_cases h1 : (!(a.tx_type == TxLogEntryType.TxSent) &&
              !(a.tx_type == TxLogEntryType.TxReceived)) = true
          · simp [cancel_tx, hl, h1]
          · have h1f : (!(a.tx_type == TxLogEntryType.TxSent) &&
                !(a.tx_type == TxLogEntryType.TxReceived)) = false := by
              simpa using h1
            simp [cancel_tx, hl, h1f, hpost]
      · intro hst hconf hpost
        have hb1 : (!(a.tx_type == TxLogEntryType.TxSent) &&
            !(a.tx_type == TxLogEntryType.TxReceived)) = false := by
          rcases hst with h | h <;> simp [h]
        have hb2 : (a.confirmed || (a.posted == some true)) = false := by
          simp [hconf, hpost]
        rcases hst with hSent | hRecv
        · have hbs : (a.tx_type == TxLogEntryType.TxSent) = true := by
            simp [hSent]
          rcases hsl : a.tx_slate_id with _ | sl0
          · refine ⟨cancel_tx_and_outputs w a
                ((retrieve_outputs w true (some a.id) none (some pk)).map
                  (fun x => x.commit)) pk, ?_, ?_, ?_⟩
            · simp [cancel_tx, hl, hb1, hb2, hbs, hsl]
            · exact cancel_tx_and_outputs_unlocks w a pk
            · intro sl _ hsl2
              cases hsl2
          · refine ⟨cancel_payments (cancel_tx_and_outputs w a
                ((retrieve_outputs w true (some a.id) none (some pk)).map
                  (fun x => x.commit)) pk) sl0, ?_, ?_, ?_⟩
            · simp [cancel_tx, hl, hb1, hb2, hbs, hsl]
            · intro o ho hlog hkey
              exact cancel_tx_and_outputs_unlocks w a pk o ho hlog hkey
            · intro sl _ hsl2 p hp
              have hss : sl0 = sl := by simpa using hsl2
              rw [← hss]
              exact cancel_payments_no_dangling _ sl0 p hp
        · have hbs : (a.tx_type == TxLogEntryType.TxSent) = false := by
            simp [hRecv]
          refine ⟨cancel_tx_and_outputs w a
              ((retrieve_outputs w true (some a.id) none (some pk)).map
                (fun x => x.commit)) pk, ?_, ?_, ?_⟩
          · simp [cancel_tx, hl, hb1, hb2, hbs, hRecv]
          · exact cancel_tx_and_outputs_unlocks w a pk
          · intro sl hS _
            rw [hRecv] at hS
            simp at hS
    · refine ⟨fun _ => by simp [cancel_tx, hl], fun tx htx => ?_⟩
      simp at htx

/-- Witness for `cancel_tx_spec`: cancelling the confirmed sent transaction 1
fails with `TransactionNotCancellable`. -/
theorem cancel_tx_spec_witness :
    cancel_tx sampleConfirmedWallet 0 (some 1) none =
      Except.error
        (ErrorKind.TransactionNotCancellable (cancelIdString (some 1) none)) :=
  ((cancel_tx_spec sampleConfirmedWallet 0 (some 1) none).2
      { sampleSentEntry with confirmed := true } (by decide)).1
    (Or.inr (Or.inl rfl))

/-- Counterexample to claim C1 as stated: a unique match that is neither
confirmed nor posted is NOT always cancellable — an already-cancelled entry
(type TxSentCancelled) makes `cancel_tx` fail with
`TransactionNotCancellable` instead of unlocking outputs. -/
theorem cancel_tx_claim_counterexample :
    ¬ (∀ (w : WalletState) (pk : KeyId) (tid : Option Nat)
        (sid : Option SlateId) (tx : TxLogEntry),
        retrieve_txs w tid sid (some pk) = [tx] →
        tx.confirmed = false → ¬tx.posted = some true →
        ∃ w2, cancel_tx w pk tid sid = Except.ok w2) := by
  intro h
  obtain ⟨w2, hw2⟩ := h cancelledWallet 0 (some 7) none sampleCancelledEntry
    (by decide) rfl (by decide)
  have he : cancel_tx cancelledWallet 0 (some 7) none =
      Except.error (ErrorKind.TransactionNotCancellable "7") := rfl
  rw [he] at hw2
  exact Except.noConfusion hw2

end GrinWallet
